import Mathlib

/-!
Shallow embedding of the Cortex Analyst Streamlit app
(src/cortex_analyst_sis_demo_app_local.py) and proofs about its
conversation orchestration pipeline.

Modelling conventions:
* Python dict content blocks become `RawItem` records whose missing keys are
  `none`; a Python direct key access on a possibly missing key is an
  `Except`-style failure (KeyError), while `.get` with a default is `Option.getD`.
* The Snowflake SQL session used by the translation helper is an explicit
  oracle `String → Except String (List String)`: `.error` stands for a raised
  exception, `.ok rows` for `collect()` returning the TRANSLATED_TEXT column.
* The streamlit session state fields touched by the code are gathered in
  `AppState`; the analyst API transport is an explicit `ApiResponse` input
  (its body already parsed, as after json.loads).
-/

/-- Roles of chat messages as the source uses them. -/
inductive Role
  | user
  | analyst
deriving DecidableEq

/-- One raw content block: a Python dict with a "type" key and the optional
keys the app reads ("text", "suggestions", "statement"). A key the dict does
not hold is `none`. -/
structure RawItem where
  type : String
  text : Option String := none
  suggestions : Option (List String) := none
  statement : Option String := none
deriving DecidableEq

/-- A chat message as stored in st.session_state.messages: role, raw content
blocks, and the request_id key present only on analyst messages. -/
structure Message where
  role : Role
  content : List RawItem
  request_id : Option String := none
deriving DecidableEq

/-- The parsed JSON body of an analyst API response (json.loads of
resp.content). `message_content` models parsed["message"]["content"] of a
success payload; `message` models the string-valued "message" key of a
failure payload; each key the body lacks is `none`. -/
structure ParsedBody where
  message_content : Option (List RawItem) := none
  request_id : Option String := none
  error_code : Option String := none
  message : Option String := none
deriving DecidableEq

/-- A transport-level analyst API response: HTTP status and parsed body. -/
structure ApiResponse where
  status : Nat
  body : ParsedBody
deriving DecidableEq

/-- The session-state fields of the app that the orchestration code touches. -/
structure AppState where
  messages : List Message
  active_suggestion : Option String
  japanese_response : Bool
  fire_API_error_notify : Bool
deriving DecidableEq

/-- Character test of contains_japanese (source lines 88-94): hiragana
U+3040-U+309F, katakana U+30A0-U+30FF, or CJK ideographs U+4E00-U+9FAF. -/
def isJapaneseChar (c : Char) : Bool :=
  (0x3040 ≤ c.toNat && c.toNat ≤ 0x309F) ||
  (0x30A0 ≤ c.toNat && c.toNat ≤ 0x30FF) ||
  (0x4E00 ≤ c.toNat && c.toNat ≤ 0x9FAF)

/-- contains_japanese (source lines 77-95): true when some character of the
text lies in one of the three Japanese unicode ranges. -/
def contains_japanese (text : String) : Bool :=
  text.data.any isJapaneseChar

/-- The single-quote escaping applied to the text interpolated into the
TRANSLATE query (source line 60). -/
def escape_quotes (text : String) : String :=
  text.replace "\x27" "\x27\x27"

/-- The SQL text sent to the translation service (source lines 58-64). -/
def translate_query (text : String) : String :=
  "\n        SELECT SNOWFLAKE.CORTEX.TRANSLATE(\n            \x27" ++
  escape_quotes text ++
  "\x27,  -- シングルクォートをエスケープ\n            \x27en\x27,  -- 元の言語（英語）\n            \x27ja\x27   -- 翻訳先の言語（日本語）\n        ) as translated_text\n        "

/-- translate_to_japanese (source lines 42-74). The oracle is the Snowflake
session: `.error` is a raised exception (caught by the try/except, which
returns the input), `.ok rows` the collected result rows; an empty result
also falls back to the input text. -/
def translate_to_japanese (oracle : String → Except String (List String))
    (text : String) : String :=
  if contains_japanese text then text
  else
    match oracle (translate_query text) with
    | .error _ => text
    | .ok [] => text
    | .ok (t :: _) => t

/-- translate_message_content (source lines 98-136): when the japanese flag is
off, the content is returned unchanged; otherwise each "text" block is
rebuilt with its text translated, each "suggestions" block with each
suggestion translated, and any other block kept as is. Reading a missing
"text" or "suggestions" key is a KeyError, modelled as `.error ()`. -/
def translate_message_content (oracle : String → Except String (List String))
    (japanese_response : Bool) (content : List RawItem) :
    Except Unit (List RawItem) :=
  if japanese_response = false then .ok content
  else
    content.mapM fun item =>
      if item.type = "text" then
        match item.text with
        | none => .error ()
        | some t => .ok { type := "text", text := some (translate_to_japanese oracle t) }
      else if item.type = "suggestions" then
        match item.suggestions with
        | none => .error ()
        | some ss => .ok { type := "suggestions",
                           suggestions := some (ss.map (translate_to_japanese oracle)) }
      else .ok item

/-- The fixed japanese instruction block prepended by enhance_user_prompt
(source lines 244-253). -/
def japanese_instruction : String :=
  "\n\n【重要】以下の点に従って回答してください：\n1. 回答は必ず日本語で行ってください\n2. データ分析の結果や説明は日本語で分かりやすく記述してください\n3. 数値や統計情報には適切な日本語の説明を添えてください\n4. 提案やインサイトも日本語で提供してください\n5. 専門用語は日本語で説明してください\n\n質問: "

/-- enhance_user_prompt (source lines 230-255). -/
def enhance_user_prompt (japanese_response : Bool) (prompt : String) : String :=
  if japanese_response = false then prompt
  else japanese_instruction ++ prompt

/-- The display Message built by process_user_input (source lines 269-272):
role user, a single text block holding the original prompt. -/
def display_message_of (prompt : String) : Message :=
  { role := Role.user, content := [{ type := "text", text := some prompt }] }

/-- The transmission Message built by process_user_input (source lines
274-277): role user, a single text block holding the enhanced prompt. -/
def api_message_of (japanese_response : Bool) (prompt : String) : Message :=
  { role := Role.user,
    content := [{ type := "text",
                  text := some (enhance_user_prompt japanese_response prompt) }] }

/-- The message list of the outbound API request (source lines 280 and 290):
the display message is appended to the history, then the request takes all
but the last history entry followed by the transmission message. -/
def build_api_messages (s : AppState) (prompt : String) : List Message :=
  (s.messages ++ [display_message_of prompt]).dropLast ++
    [api_message_of s.japanese_response prompt]

/-- The error message assembled by get_analyst_response on a failure status
(source lines 357-367), with the literal getD fallbacks of the source. -/
def error_msg_format (status : Nat) (body : ParsedBody) : String :=
  "\n🚨 アナリストAPIエラーが発生しました 🚨\n\n* レスポンスコード: `" ++
  toString status ++
  "`\n* リクエストID: `" ++ body.request_id.getD "N/A" ++
  "`\n* エラーコード: `" ++ body.error_code.getD "N/A" ++
  "`\n\nメッセージ:\n" ++ body.message.getD "詳細不明" ++
  "\n\n        "

/-- Modelled from the spec: the claim wording says the failure message falls
back to literal "unknown"/"N/A" for any absent field; this renders that
wording, with the "message" field falling back to "unknown". It exists only
to be compared with `error_msg_format`, which is read off the source. -/
def error_msg_spec (status : Nat) (body : ParsedBody) : String :=
  "\n🚨 アナリストAPIエラーが発生しました 🚨\n\n* レスポンスコード: `" ++
  toString status ++
  "`\n* リクエストID: `" ++ body.request_id.getD "N/A" ++
  "`\n* エラーコード: `" ++ body.error_code.getD "N/A" ++
  "`\n\nメッセージ:\n" ++ body.message.getD "unknown" ++
  "\n\n        "

/-- get_analyst_response (source lines 320-368): status below 400 returns the
parsed body with no error; otherwise the parsed body with the formatted
error message. -/
def get_analyst_response (resp : ApiResponse) : ParsedBody × Option String :=
  if resp.status < 400 then (resp.body, none)
  else (resp.body, some (error_msg_format resp.status resp.body))

/-- process_user_input (source lines 258-317). Returns, on normal completion,
the outbound request message list together with the updated state; returns
`.error` with the state as mutated so far when a direct dict access raises a
KeyError (missing "message"/"content" or "request_id" on a success payload,
missing "request_id" on a failure payload at source line 313 — reached
before the error-notify flag is set on line 315). -/
def process_user_input (oracle : String → Except String (List String))
    (resp : ApiResponse) (s : AppState) (prompt : String) :
    Except AppState (List Message × AppState) :=
  let s1 : AppState := { s with messages := s.messages ++ [display_message_of prompt] }
  let api_messages := build_api_messages s prompt
  match get_analyst_response resp with
  | (response, none) =>
    match response.message_content with
    | none => .error s1
    | some content =>
      match (if s1.japanese_response then
               translate_message_content oracle s1.japanese_response content
             else .ok content) with
      | .error _ => .error s1
      | .ok content2 =>
        match response.request_id with
        | none => .error s1
        | some rid =>
          .ok (api_messages,
               { s1 with messages := s1.messages ++
                   [{ role := Role.analyst, content := content2,
                      request_id := some rid }] })
  | (response, some emsg) =>
    let error_text := if s1.japanese_response then translate_to_japanese oracle emsg
                      else emsg
    match response.request_id with
    | none => .error s1
    | some rid =>
      .ok (api_messages,
           { s1 with
             fire_API_error_notify := true,
             messages := s1.messages ++
               [{ role := Role.analyst,
                  content := [{ type := "text", text := some error_text }],
                  request_id := some rid }] })

/-- One submit against a stream of pending transport responses: exactly the
head response is consumed (the source issues a single send_snow_api_request
per call, with no retry). `none` when the environment has no response. -/
def process_user_input_stream (oracle : String → Except String (List String))
    (resps : List ApiResponse) (s : AppState) (prompt : String) :
    Option ((Except AppState (List Message × AppState)) × List ApiResponse) :=
  match resps with
  | [] => none
  | r :: rest => some (process_user_input oracle r s prompt, rest)

/-- handle_user_inputs (source lines 210-221): a nonempty chat input is
processed directly; otherwise a pending active_suggestion is cleared and then
processed exactly as a fresh submit of its text. -/
def handle_user_inputs (oracle : String → Except String (List String))
    (resp : ApiResponse) (user_input : Option String) (s : AppState) :
    Except AppState AppState :=
  let suggestion_branch : Except AppState AppState :=
    match s.active_suggestion with
    | some suggestion =>
      (process_user_input oracle resp { s with active_suggestion := none }
        suggestion).map Prod.snd
    | none => .ok s
  match user_input with
  | some t =>
    if t = "" then suggestion_branch
    else (process_user_input oracle resp s t).map Prod.snd
  | none => suggestion_branch

/-- handle_error_notifications (source lines 223-227): returns whether a toast
was fired and the state with the one-shot flag cleared if it was set. -/
def handle_error_notifications (s : AppState) : Bool × AppState :=
  if s.fire_API_error_notify then
    (true, { s with fire_API_error_notify := false })
  else (false, s)

/-- The normalized content blocks the spec calls ContentBlock. -/
inductive ContentBlock
  | text (t : String)
  | suggestions (items : List String)
  | query (statement : String)
deriving DecidableEq

/-- Classification of one raw block, read off the dispatch of
display_message_content (source lines 390-407): "text" renders a text block,
"suggestions" a suggestions block (order preserved), "sql" a query block, and
any other type falls to the silent pass branch (`none`). A missing required
key under a recognized type is a KeyError. -/
def classify_item (item : RawItem) : Except Unit (Option ContentBlock) :=
  if item.type = "text" then
    match item.text with
    | none => .error ()
    | some t => .ok (some (ContentBlock.text t))
  else if item.type = "suggestions" then
    match item.suggestions with
    | none => .error ()
    | some ss => .ok (some (ContentBlock.suggestions ss))
  else if item.type = "sql" then
    match item.statement with
    | none => .error ()
    | some st => .ok (some (ContentBlock.query st))
  else .ok none

/-- display_message_content (source lines 382-407) as a pure classifier: the
ordered blocks it renders, dropped blocks omitted. -/
def display_message_content : List RawItem → Except Unit (List ContentBlock)
  | [] => .ok []
  | item :: rest =>
    match classify_item item with
    | .error e => .error e
    | .ok none => display_message_content rest
    | .ok (some blk) =>
      match display_message_content rest with
      | .error e => .error e
      | .ok bs => .ok (blk :: bs)

/-- The tabular result of a query, abstracting a pandas DataFrame. -/
abbrev Df := List (List String)

/-- The body of get_query_exec_result (source lines 421-426): the backend
either yields rows or raises a SnowparkSQLException whose string is returned
as the error component. -/
def get_query_exec_result_body (backend : String → Except String Df)
    (query : String) : Option Df × Option String :=
  match backend query with
  | .ok df => (some df, none)
  | .error e => (none, some e)

/-- The st.cache_data store keyed by the exact query text. -/
abbrev QueryCache := List (String × (Option Df × Option String))

/-- Lookup in the cache by exact query string. -/
def cache_lookup (cache : QueryCache) (query : String) :
    Option (Option Df × Option String) :=
  match cache with
  | [] => none
  | (k, v) :: rest => if k = query then some v else cache_lookup rest query

/-- The outcome of one cached execution: the returned result, the cache
afterwards, and whether the data backend was reached. -/
structure ExecOut where
  result : Option Df × Option String
  cache : QueryCache
  backend_hit : Bool
deriving DecidableEq

/-- get_query_exec_result under its st.cache_data decorator (source line 410):
a hit returns the stored result without reaching the backend; a miss runs the
body, stores the result — error results exactly like successes — and
returns it. -/
def get_query_exec_result (backend : String → Except String Df)
    (cache : QueryCache) (query : String) : ExecOut :=
  match cache_lookup cache query with
  | some r => { result := r, cache := cache, backend_hit := false }
  | none =>
    let r := get_query_exec_result_body backend query
    { result := r, cache := cache ++ [(query, r)], backend_hit := true }

/-- A failing translation oracle: the session raises on any query. -/
def oracle_exn : String → Except String (List String) :=
  fun _ => .error "exn"

/-- A failing data backend: every query raises a SnowparkSQLException. -/
def backend_fail : String → Except String Df :=
  fun _ => .error "SQL compilation error"

/-- The failure body of the simulated API error of the spec: error_code E1,
message bad, and no request_id key. -/
def body_E1 : ParsedBody :=
  { error_code := some "E1", message := some "bad" }

/-- A simulated failing API response: status 404 with `body_E1`. -/
def resp404_E1 : ApiResponse :=
  { status := 404, body := body_E1 }

/-- A successful API response: one text block and a request id. -/
def resp_ok_en : ApiResponse :=
  { status := 200,
    body := { message_content := some [{ type := "text", text := some "ok" }],
              request_id := some "rid" } }

/-- The analyst message produced from `resp_ok_en` with translation off. -/
def msg_ok_analyst : Message :=
  { role := Role.analyst,
    content := [{ type := "text", text := some "ok" }],
    request_id := some "rid" }

/-- A fresh session state with the japanese-response box checked (default). -/
def st_empty_jp : AppState :=
  { messages := [], active_suggestion := none, japanese_response := true,
    fire_API_error_notify := false }

/-- A fresh session state with the japanese-response box unchecked. -/
def st_empty_en : AppState :=
  { messages := [], active_suggestion := none, japanese_response := false,
    fire_API_error_notify := false }

/-- A session state holding a clicked suggestion awaiting processing. -/
def st_sugg : AppState :=
  { messages := [], active_suggestion := some "q9", japanese_response := false,
    fire_API_error_notify := false }

/-- Dropping the last element of a list extended by one element gives the
list back. -/
theorem dropLast_append_single {α : Type} (l : List α) (a : α) :
    (l ++ [a]).dropLast = l := by
  simp

/-- The outbound request list is exactly the prior history followed by the
transmission message: appending the display message and then dropping the
last entry restores the prior history. -/
theorem build_api_messages_eq (s : AppState) (prompt : String) :
    build_api_messages s prompt =
      s.messages ++ [api_message_of s.japanese_response prompt] := by
  unfold build_api_messages
  rw [dropLast_append_single]

/-- Shape of one submit: on a KeyError abort the state holds exactly the
prior history plus the display message; on normal completion the request is
the prior history plus the transmission message, and the new history is the
prior history, the display message, then one analyst message, with the other
state fields untouched. -/
theorem process_user_input_shape (oracle : String → Except String (List String))
    (resp : ApiResponse) (s : AppState) (p : String) :
    (∀ s1, process_user_input oracle resp s p = .error s1 →
        s1 = { s with messages := s.messages ++ [display_message_of p] }) ∧
    (∀ req s2, process_user_input oracle resp s p = .ok (req, s2) →
        req = s.messages ++ [api_message_of s.japanese_response p] ∧
        ∃ am : Message,
          s2.messages = s.messages ++ [display_message_of p, am] ∧
          am.role = Role.analyst ∧
          s2.active_suggestion = s.active_suggestion ∧
          s2.japanese_response = s.japanese_response) := by
  constructor
  · intro s1 h
    unfold process_user_input at h
    dsimp only at h
    split at h <;> (repeat' split at h) <;> simp_all
  · intro req s2 h
    unfold process_user_input at h
    rw [build_api_messages_eq] at h
    dsimp only at h
    split at h <;> (repeat' split at h) <;> simp_all <;>
      (obtain ⟨h1, h2⟩ := h; subst h2; exact ⟨_, by simp; rfl, rfl, rfl, rfl⟩)

/-- An Except value that maps to a successful second component comes from a
successful pair. -/
theorem except_map_snd_ok {ε α β : Type} (e : Except ε (α × β)) (b : β)
    (h : e.map Prod.snd = .ok b) : ∃ a, e = .ok (a, b) := by
  cases e with
  | error x => simp [Except.map] at h
  | ok p =>
    obtain ⟨a, b2⟩ := p
    simp [Except.map] at h
    exact ⟨a, by rw [h]⟩

/-- A fresh entry appended to a cache that missed a query is found by the
next lookup of that query. -/
theorem cache_lookup_append_miss (c : QueryCache) (q : String)
    (r : Option Df × Option String) (h : cache_lookup c q = none) :
    cache_lookup (c ++ [(q, r)]) q = some r := by
  induction c with
  | nil => simp [cache_lookup]
  | cons kv rest ih =>
    obtain ⟨k, v⟩ := kv
    simp only [cache_lookup, List.cons_append] at h ⊢
    by_cases hk : k = q
    · simp [hk] at h
    · rw [if_neg hk] at h ⊢
      exact ih h

/-- Appending an entry for one query leaves lookups of a different query
unchanged. -/
theorem cache_lookup_append_ne (c : QueryCache) (q q2 : String)
    (r : Option Df × Option String) (h : q ≠ q2) :
    cache_lookup (c ++ [(q, r)]) q2 = cache_lookup c q2 := by
  induction c with
  | nil => simp [cache_lookup, h]
  | cons kv rest ih =>
    obtain ⟨k, v⟩ := kv
    simp only [cache_lookup, List.cons_append]
    by_cases hk : k = q2 <;> simp [hk, ih]

/-- Claim C1: each submit() call should append exactly two messages (the
display user message then one analyst message), keeping history length even.
The code violates this: when the API fails with status 404 and a body that
lacks a request_id key, the direct access at source line 313 raises a
KeyError after the user message was already appended, leaving history of
length 1 — not twice the number of submissions. -/
theorem C1_keyerror_breaks_double_append :
    process_user_input oracle_exn resp404_E1 st_empty_jp "hello" =
      .error { st_empty_jp with messages := [display_message_of "hello"] } ∧
    ({ st_empty_jp with messages := [display_message_of "hello"] } : AppState).messages.length = 1 ∧
    ¬ ({ st_empty_jp with messages := [display_message_of "hello"] } : AppState).messages.length = 2 * 1 := by
  refine ⟨by rfl, by rfl, by decide⟩

/-- Claim C2: the outbound request equals all prior history messages
unchanged followed by the transmission form of the new turn (prefixed with
the japanese instruction block when enabled, the raw text otherwise), while
history persists only the original un-augmented user text, also on an
aborted turn. -/
theorem C2_request_and_history (s : AppState) (prompt : String) :
    build_api_messages s prompt =
      s.messages ++ [api_message_of s.japanese_response prompt] ∧
    (api_message_of true prompt).content =
      [{ type := "text", text := some (japanese_instruction ++ prompt) }] ∧
    (api_message_of false prompt).content =
      [{ type := "text", text := some prompt }] ∧
    (display_message_of prompt).content =
      [{ type := "text", text := some prompt }] ∧
    (∀ oracle resp req s2, process_user_input oracle resp s prompt = .ok (req, s2) →
        req = s.messages ++ [api_message_of s.japanese_response prompt] ∧
        ∃ am : Message,
          s2.messages = s.messages ++ [display_message_of prompt, am] ∧
          am.role = Role.analyst) ∧
    (∀ oracle resp s1, process_user_input oracle resp s prompt = .error s1 →
        s1.messages = s.messages ++ [display_message_of prompt]) := by
  refine ⟨build_api_messages_eq s prompt, rfl, rfl, rfl, ?_, ?_⟩
  · intro oracle resp req s2 hok
    have h := (process_user_input_shape oracle resp s prompt).2 req s2 hok
    exact ⟨h.1, h.2.elim fun am hm => ⟨am, hm.1, hm.2.1⟩⟩
  · intro oracle resp s1 herr
    have h := (process_user_input_shape oracle resp s prompt).1 s1 herr
    rw [h]

/-- Concrete run of C2: a successful submit of "hi" with translation off
sends exactly the one transmission message and persists the display message
followed by one analyst message. -/
theorem C2_witness :
    [api_message_of false "hi"] =
      st_empty_en.messages ++ [api_message_of st_empty_en.japanese_response "hi"] ∧
    ∃ am : Message,
      ({ st_empty_en with
          messages := [display_message_of "hi", msg_ok_analyst] } : AppState).messages =
        st_empty_en.messages ++ [display_message_of "hi", am] ∧
      am.role = Role.analyst := by
  exact (C2_request_and_history st_empty_en "hi").2.2.2.2.1 oracle_exn resp_ok_en
    [api_message_of false "hi"]
    { st_empty_en with messages := [display_message_of "hi", msg_ok_analyst] }
    (by rfl)

/-- Claim C3: the renderer dispatches each raw block on its type
discriminator — "text" to a text block, "suggestions" to a suggestions block
with its list preserved in order, "sql" to a query block — silently drops a
block with any other discriminator, and on the payload of the spec yields
exactly the text block A and the query block SELECT 1. -/
theorem C3_classify_dispatch :
    (∀ t su st rest,
        display_message_content
            ({ type := "text", text := some t, suggestions := su,
               statement := st } :: rest) =
          (display_message_content rest).map (fun bs => ContentBlock.text t :: bs)) ∧
    (∀ ss tx st rest,
        display_message_content
            ({ type := "suggestions", text := tx, suggestions := some ss,
               statement := st } :: rest) =
          (display_message_content rest).map
            (fun bs => ContentBlock.suggestions ss :: bs)) ∧
    (∀ q tx su rest,
        display_message_content
            ({ type := "sql", text := tx, suggestions := su,
               statement := some q } :: rest) =
          (display_message_content rest).map (fun bs => ContentBlock.query q :: bs)) ∧
    (∀ item rest, item.type ≠ "text" → item.type ≠ "suggestions" →
        item.type ≠ "sql" →
        display_message_content (item :: rest) = display_message_content rest) ∧
    display_message_content
        [{ type := "text", text := some "A" },
         { type := "sql", statement := some "SELECT 1" },
         { type := "bogus" }] =
      .ok [ContentBlock.text "A", ContentBlock.query "SELECT 1"] := by
  refine ⟨?_, ?_, ?_, ?_, by rfl⟩
  · intro t su st rest
    cases h : display_message_content rest <;>
      simp [display_message_content, classify_item, h, Except.map]
  · intro ss tx st rest
    cases h : display_message_content rest <;>
      simp [display_message_content, classify_item, h, Except.map]
  · intro q tx su rest
    cases h : display_message_content rest <;>
      simp [display_message_content, classify_item, h, Except.map]
  · intro item rest h1 h2 h3
    simp [display_message_content, classify_item, h1, h2, h3]

/-- Concrete run of C3: an unknown block type is dropped without affecting
the rest of the classification. -/
theorem C3_witness :
    display_message_content [{ type := "bogus" }] = display_message_content [] := by
  exact C3_classify_dispatch.2.2.2.1 { type := "bogus" } [] (by decide) (by decide)
    (by decide)

/-- Claim C4: a second execution of the same query string is served from the
cache without reaching the backend and returns the same result; two distinct
fresh query strings reach the backend once each; failing results are cached
exactly like successes, so a failing query is not re-executed. -/
theorem C4_cache_once (backend : String → Except String Df) (c : QueryCache)
    (q q2 : String) :
    ((get_query_exec_result backend (get_query_exec_result backend c q).cache q).backend_hit = false ∧
     (get_query_exec_result backend (get_query_exec_result backend c q).cache q).result =
       (get_query_exec_result backend c q).result ∧
     (get_query_exec_result backend (get_query_exec_result backend c q).cache q).cache =
       (get_query_exec_result backend c q).cache) ∧
    (cache_lookup c q = none → cache_lookup c q2 = none → q ≠ q2 →
      (get_query_exec_result backend c q).backend_hit = true ∧
      (get_query_exec_result backend (get_query_exec_result backend c q).cache q2).backend_hit = true) ∧
    (∀ e, backend q = .error e → cache_lookup c q = none →
      (get_query_exec_result backend c q).result = (none, some e) ∧
      (get_query_exec_result backend (get_query_exec_result backend c q).cache q).backend_hit = false ∧
      (get_query_exec_result backend (get_query_exec_result backend c q).cache q).result =
        (none, some e)) := by
  refine ⟨?_, ?_, ?_⟩
  · cases hc : cache_lookup c q with
    | some r => simp [get_query_exec_result, hc]
    | none =>
      have h2 := cache_lookup_append_miss c q (get_query_exec_result_body backend q) hc
      simp [get_query_exec_result, hc, h2]
  · intro h1 h2 hne
    have hkeep := cache_lookup_append_ne c q q2 (get_query_exec_result_body backend q) hne
    simp [get_query_exec_result, h1, h2, hkeep]
  · intro e he h1
    have hbody : get_query_exec_result_body backend q = (none, some e) := by
      simp [get_query_exec_result_body, he]
    have h2 := cache_lookup_append_miss c q (none, some e) h1
    simp [get_query_exec_result, hbody, h1, h2]

/-- Concrete run of C4: from an empty cache, two distinct queries against an
always-failing backend each reach it once, the error is cached, and the
repeat of the first query is served from the cache. -/
theorem C4_witness :
    (get_query_exec_result backend_fail [] "SELECT 1").backend_hit = true ∧
    (get_query_exec_result backend_fail
        (get_query_exec_result backend_fail [] "SELECT 1").cache "SELECT 2").backend_hit = true ∧
    (get_query_exec_result backend_fail [] "SELECT 1").result =
      (none, some "SQL compilation error") ∧
    (get_query_exec_result backend_fail
        (get_query_exec_result backend_fail [] "SELECT 1").cache "SELECT 1").backend_hit = false := by
  have h := C4_cache_once backend_fail [] "SELECT 1" "SELECT 2"
  exact ⟨(h.2.1 rfl rfl (by decide)).1, (h.2.1 rfl rfl (by decide)).2,
         (h.2.2 "SQL compilation error" rfl rfl).1,
         (h.2.2 "SQL compilation error" rfl rfl).2.1⟩

/-- Claim C5 (amended): a status strictly below 400 is success with the
parsed payload and no error; a status of 400 or above is failure with the
structured message assembled from status, request_id, error_code and
message, falling back to N/A for an absent request_id or error_code and to
the literal 詳細不明 for an absent message; exactly one transport response is
consumed per submit, with no retry. -/
theorem C5_status_classification (resp : ApiResponse) :
    (resp.status < 400 → get_analyst_response resp = (resp.body, none)) ∧
    (400 ≤ resp.status →
        get_analyst_response resp =
          (resp.body, some (error_msg_format resp.status resp.body))) ∧
    (∀ st mc, error_msg_format st { message_content := mc } =
        "\n🚨 アナリストAPIエラーが発生しました 🚨\n\n* レスポンスコード: `" ++
        toString st ++
        "`\n* リクエストID: `" ++ "N/A" ++ "`\n* エラーコード: `" ++ "N/A" ++
        "`\n\nメッセージ:\n" ++ "詳細不明" ++ "\n\n        ") ∧
    (∀ oracle r rest s p,
        process_user_input_stream oracle (r :: rest) s p =
          some (process_user_input oracle r s p, rest)) := by
  refine ⟨?_, ?_, fun st mc => rfl, fun oracle r rest s p => rfl⟩
  · intro h
    unfold get_analyst_response
    rw [if_pos h]
  · intro h
    unfold get_analyst_response
    rw [if_neg (by omega)]

/-- The claim as frozen is false on the code: for a failure body with no
message field the assembled error text falls back to the literal 詳細不明,
which is neither of the claimed literals unknown and N/A. -/
theorem C5_counterexample :
    error_msg_format 404 {} ≠ error_msg_spec 404 {} ∧
    error_msg_format 404 {} ≠ error_msg_format 404 { message := some "N/A" } ∧
    error_msg_spec 404 {} =
      "\n🚨 アナリストAPIエラーが発生しました 🚨\n\n* レスポンスコード: `404`\n* リクエストID: `N/A`\n* エラーコード: `N/A`\n\nメッセージ:\nunknown\n\n        " := by
  refine ⟨by decide, by decide, rfl⟩

/-- Concrete runs of C5: a 200 response is classified as success, a 404
response as failure carrying the formatted message. -/
theorem C5_witness :
    get_analyst_response resp_ok_en = (resp_ok_en.body, none) ∧
    get_analyst_response resp404_E1 =
      (body_E1, some (error_msg_format 404 body_E1)) := by
  exact ⟨(C5_status_classification resp_ok_en).1 (by decide),
         (C5_status_classification resp404_E1).2.1 (by decide)⟩

/-- Claim C6: on the simulated failure status 404 with body error_code E1,
message bad (and no request_id), submit() should append one analyst Text
message carrying 404, E1 and bad, and set the one-shot error flag. The code
instead raises a KeyError at the request_id access before the append and
before the flag assignment: no analyst message is appended, the flag stays
false, and no notification fires. -/
theorem C6_error_turn_keyerror :
    process_user_input oracle_exn resp404_E1 st_empty_jp "q" =
      .error { st_empty_jp with messages := [display_message_of "q"] } ∧
    ({ st_empty_jp with messages := [display_message_of "q"] } : AppState).messages.map
        Message.role = [Role.user] ∧
    ({ st_empty_jp with messages := [display_message_of "q"] } : AppState).fire_API_error_notify = false ∧
    handle_error_notifications { st_empty_jp with messages := [display_message_of "q"] } =
      (false, { st_empty_jp with messages := [display_message_of "q"] }) := by
  exact ⟨rfl, rfl, rfl, rfl⟩

/-- Claim C7: translation returns its input unchanged whenever the text
already contains a code point of the target script, hence translate is
idempotent on any text already in the target script. -/
theorem C7_translate_shortcircuit_idempotent
    (oracle : String → Except String (List String)) (text : String)
    (h : contains_japanese text = true) :
    translate_to_japanese oracle text = text ∧
    translate_to_japanese oracle (translate_to_japanese oracle text) =
      translate_to_japanese oracle text := by
  have h1 : translate_to_japanese oracle text = text := by
    unfold translate_to_japanese
    rw [if_pos h]
  exact ⟨h1, by rw [h1, h1]⟩

/-- Concrete run of C7: a hiragana text is returned unchanged and the
translation is idempotent on it. -/
theorem C7_witness :
    translate_to_japanese oracle_exn "こんにちは" = "こんにちは" ∧
    translate_to_japanese oracle_exn (translate_to_japanese oracle_exn "こんにちは") =
      translate_to_japanese oracle_exn "こんにちは" := by
  exact C7_translate_shortcircuit_idempotent oracle_exn "こんにちは" (by decide)

/-- Claim C8: a failure of the external translation call — an exception or
an empty result set — makes translate return the original text unchanged
instead of raising. -/
theorem C8_translation_failure_fallback
    (oracle : String → Except String (List String)) (text msg : String) :
    (oracle (translate_query text) = .error msg →
        translate_to_japanese oracle text = text) ∧
    (oracle (translate_query text) = .ok [] →
        translate_to_japanese oracle text = text) := by
  constructor <;> intro h <;> unfold translate_to_japanese <;>
    cases hc : contains_japanese text <;> simp [h, hc]

/-- Concrete runs of C8: a raising oracle and an empty-result oracle both
leave the text unchanged. -/
theorem C8_witness :
    translate_to_japanese (fun _ => Except.error "exn") "hello" = "hello" ∧
    translate_to_japanese (fun _ => Except.ok []) "hello" = "hello" := by
  exact ⟨(C8_translation_failure_fallback (fun _ => Except.error "exn") "hello" "exn").1 rfl,
         (C8_translation_failure_fallback (fun _ => Except.ok []) "hello" "x").2 rfl⟩

/-- Claim C9: a stored suggestion is consumed at most once: with no chat
input, the pass processes the stored text exactly as a fresh submit of that
text on the state with the field already cleared; any state the pass
completes in has no stored suggestion, and a further pass with no chat input
processes nothing. -/
theorem C9_suggestion_consumed_once
    (oracle : String → Except String (List String)) (resp : ApiResponse)
    (s : AppState) (sg : String) (h : s.active_suggestion = some sg) :
    handle_user_inputs oracle resp none s =
      (process_user_input oracle resp { s with active_suggestion := none } sg).map
        Prod.snd ∧
    (∀ s2, handle_user_inputs oracle resp none s = .ok s2 →
        s2.active_suggestion = none) ∧
    (∀ s2 oracle2 resp2, handle_user_inputs oracle resp none s = .ok s2 →
        handle_user_inputs oracle2 resp2 none s2 = .ok s2) := by
  have h1 : handle_user_inputs oracle resp none s =
      (process_user_input oracle resp { s with active_suggestion := none } sg).map
        Prod.snd := by
    simp [handle_user_inputs, h]
  have key : ∀ s2, handle_user_inputs oracle resp none s = .ok s2 →
      s2.active_suggestion = none := by
    intro s2 hok
    rw [h1] at hok
    obtain ⟨req, hpe⟩ := except_map_snd_ok _ _ hok
    have hs := (process_user_input_shape oracle resp
      { s with active_suggestion := none } sg).2 req s2 hpe
    obtain ⟨-, am, -, -, hact, -⟩ := hs
    exact hact
  refine ⟨h1, key, ?_⟩
  intro s2 oracle2 resp2 hok
  have hn := key s2 hok
  simp [handle_user_inputs, hn]

/-- Concrete run of C9: with a stored suggestion and no chat input, the pass
equals a fresh submit of the stored text on the cleared state. -/
theorem C9_witness :
    handle_user_inputs oracle_exn resp_ok_en none st_sugg =
      (process_user_input oracle_exn resp_ok_en
        { st_sugg with active_suggestion := none } "q9").map Prod.snd := by
  exact (C9_suggestion_consumed_once oracle_exn resp_ok_en st_sugg "q9" rfl).1

/-- Claim C10: on a failure status the analyst message takes its request_id
by direct key access on the parsed failure body, so the turn completes only
when the body holds a request_id key; for every failure body lacking it the
turn aborts with a KeyError right after the display message was appended —
even though the displayed error text itself falls back to N/A for a missing
request_id. -/
theorem C10_missing_request_id_keyerror
    (oracle : String → Except String (List String)) (resp : ApiResponse)
    (s : AppState) (p : String) (h4 : 400 ≤ resp.status) :
    (resp.body.request_id = none →
        process_user_input oracle resp s p =
          .error { s with messages := s.messages ++ [display_message_of p] }) ∧
    (∀ out, process_user_input oracle resp s p = .ok out →
        resp.body.request_id.isSome = true) ∧
    error_msg_format resp.status { resp.body with request_id := none } =
      error_msg_format resp.status { resp.body with request_id := some "N/A" } := by
  have hga : get_analyst_response resp =
      (resp.body, some (error_msg_format resp.status resp.body)) := by
    unfold get_analyst_response
    rw [if_neg (by omega)]
  have key : resp.body.request_id = none →
      process_user_input oracle resp s p =
        .error { s with messages := s.messages ++ [display_message_of p] } := by
    intro hrid
    unfold process_user_input
    rw [hga]
    dsimp only
    rw [hrid]
  refine ⟨key, ?_, rfl⟩
  intro out hok
  cases hr : resp.body.request_id with
  | some v => rfl
  | none =>
    rw [key hr] at hok
    cases hok

/-- Concrete runs of C10: with the 404 body lacking request_id the turn
aborts after the user message; the fallback identity holds at status 404. -/
theorem C10_witness :
    process_user_input oracle_exn resp404_E1 st_empty_en "w" =
      .error { st_empty_en with messages := [display_message_of "w"] } ∧
    error_msg_format 404 { body_E1 with request_id := none } =
      error_msg_format 404 { body_E1 with request_id := some "N/A" } := by
  have h := C10_missing_request_id_keyerror oracle_exn resp404_E1 st_empty_en "w"
    (by decide)
  exact ⟨h.1 rfl, h.2.2⟩
